import Mathlib

/-!
Verification of the `rchan` PKGBUILD update checker.

The development shallowly embeds the core of the program:

* `pkgbuild.rs`: `PkgVersion`, its `Display` implementation, and
  `parse_pkgbuild`, which extracts `pkgver`/`pkgrel` with the multiline
  regexes `(?m)^pkgver=([0-9][0-9.]*)` and `(?m)^pkgrel=([0-9]+)`.
  The multiline anchor `^` matches exactly at the start of the text and
  after every `'\n'`, so the regex search is embedded as: split the text
  into lines at `'\n'` and take the first line on which the anchored
  pattern matches, the capture group being the matched value.
* `config.rs`: `RchanConfig` (one field, `remote_pkgbuild`).
* `scanner.rs`: `ScanResult`, `check_package` and `scan_directory`.
  Effects are made explicit: the result of reading a file or fetching a
  URL is an `Except String String` value (body text or error description),
  the network is a function from URL to such a result, and the base
  directory listing is an `Except String (List DirEntry)`.  Rust's
  `sort_by` is a stable sort, embedded as `List.insertionSort` (stable).
* `builder.rs`: the candidate-discovery filter of `run_build`.
-/

namespace Rchan

/-- `struct PkgVersion` from `pkgbuild.rs`: the version record extracted from
a PKGBUILD, two string fields. `PartialEq` is derived in the source, i.e.
structural equality of both fields. -/
structure PkgVersion where
  pkgver : String
  pkgrel : String
deriving DecidableEq, Repr

/-- The `Display` implementation of `PkgVersion`: `"{pkgver}-{pkgrel}"`. -/
def PkgVersion.display (v : PkgVersion) : String :=
  v.pkgver ++ "-" ++ v.pkgrel

/-- The character class `[0-9.]` of the pkgver capture group. -/
def verChar (c : Char) : Bool :=
  c.isDigit || c == '.'

/-- Match of the line-anchored pattern `^pkgver=([0-9][0-9.]*)` against one
line, returning the capture group: the line must begin, at its very first
character, with the literal `pkgver=`, followed by a digit; the capture is
the maximal run of digits and dots. -/
def verValue : List Char → Option (List Char)
  | 'p' :: 'k' :: 'g' :: 'v' :: 'e' :: 'r' :: '=' :: rest =>
    match rest with
    | c :: _ => if c.isDigit then some (rest.takeWhile verChar) else none
    | [] => none
  | _ => none

/-- Match of the line-anchored pattern `^pkgrel=([0-9]+)` against one line:
the line must begin with the literal `pkgrel=` followed by a digit; the
capture is the maximal run of digits. -/
def relValue : List Char → Option (List Char)
  | 'p' :: 'k' :: 'g' :: 'r' :: 'e' :: 'l' :: '=' :: rest =>
    match rest with
    | c :: _ => if c.isDigit then some (rest.takeWhile Char.isDigit) else none
    | [] => none
  | _ => none

/-- Split a text into its lines at `'\n'`.  The starts of these lines are
exactly the positions where the `(?m)` anchor `^` of the Rust regexes can
match. -/
def splitLines : List Char → List (List Char)
  | [] => [[]]
  | c :: rest =>
    if c = '\n' then [] :: splitLines rest
    else
      match splitLines rest with
      | l :: ls => (c :: l) :: ls
      | [] => [[c]]

/-- `parse_pkgbuild` from `pkgbuild.rs`: find the leftmost (first-line)
match of the pkgver pattern, then of the pkgrel pattern; a missing match
produces the corresponding `anyhow` context message.  `pkgver` is checked
first, so a text missing both fields reports the pkgver failure. -/
def parse_pkgbuild (content : String) : Except String PkgVersion :=
  let lines := splitLines content.toList
  match lines.findSome? verValue with
  | none => .error "Failed to find pkgver in PKGBUILD"
  | some v =>
    match lines.findSome? relValue with
    | none => .error "Failed to find pkgrel in PKGBUILD"
    | some r => .ok ⟨String.mk v, String.mk r⟩

/-- `struct RchanConfig` from `config.rs`: the one recognized field of the
`rchan.yaml` declaration file. -/
structure RchanConfig where
  remote_pkgbuild : String
deriving DecidableEq, Repr

/-- `enum ScanResult` from `scanner.rs`. -/
inductive ScanResult where
  | Updated (name local_ver remote_ver : String)
  | UpToDate (name local_ver : String)
  | Error (name message : String)
deriving DecidableEq, Repr

/-- The package name carried by a `ScanResult`, as extracted by the `match`
inside the `sort_by` comparator of `scan_directory`. -/
def ScanResult.name : ScanResult → String
  | .Updated n _ _ => n
  | .UpToDate n _ => n
  | .Error n _ => n

/-- `parse_local` from `pkgbuild.rs`, with the filesystem read made
explicit: the argument is the result of `fs::read_to_string` (the file text,
or the already-contextualized error description); on success the text is
parsed with `parse_pkgbuild`. -/
def parse_local (readResult : Except String String) : Except String PkgVersion :=
  match readResult with
  | .error e => .error e
  | .ok content => parse_pkgbuild content

/-- `parse_remote` from `pkgbuild.rs`, with the network made explicit as a
function from URL to fetch result (response body, or error description
covering connection failure / non-success HTTP status / unreadable body). -/
def parse_remote (network : String → Except String String) (url : String) :
    Except String PkgVersion :=
  match network url with
  | .error e => .error e
  | .ok content => parse_pkgbuild content

/-- `check_package` from `scanner.rs`: config load, then local parse, then
remote fetch/parse, each failure short-circuiting to `ScanResult.Error` with
the step's message; on full success the two versions are compared with
`PkgVersion` equality. -/
def check_package (network : String → Except String String) (name : String)
    (configLoad : Except String RchanConfig)
    (pkgbuildRead : Except String String) : ScanResult :=
  match configLoad with
  | .error e => .Error name ("Failed to parse rchan.yaml: " ++ e)
  | .ok config =>
    match parse_local pkgbuildRead with
    | .error e => .Error name ("Failed to parse local PKGBUILD: " ++ e)
    | .ok local_ver =>
      match parse_remote network config.remote_pkgbuild with
      | .error e => .Error name ("Failed to fetch remote PKGBUILD: " ++ e)
      | .ok remote_ver =>
        if local_ver = remote_ver then
          .UpToDate name local_ver.display
        else
          .Updated name local_ver.display remote_ver.display

instance exceptDecEq {ε α : Type} [DecidableEq ε] [DecidableEq α] :
    DecidableEq (Except ε α) := fun x y =>
  match x, y with
  | .error a, .error b =>
    if h : a = b then .isTrue (by rw [h]) else .isFalse (by simp [h])
  | .error _, .ok _ => .isFalse (by simp)
  | .ok _, .error _ => .isFalse (by simp)
  | .ok a, .ok b =>
    if h : a = b then .isTrue (by rw [h]) else .isFalse (by simp [h])

/-- One filesystem node as the scanner observes it: its base name, whether
it is a directory, whether `rchan.yaml` / `PKGBUILD` exist inside it, and
the results of loading those two files. -/
structure FsNode where
  name : String
  isDir : Bool
  hasRchanYaml : Bool
  hasPKGBUILD : Bool
  configLoad : Except String RchanConfig
  pkgbuildRead : Except String String
deriving DecidableEq, Repr

/-- An immediate entry of the base directory together with its own immediate
sub-entries; the scanner never inspects `sub` (no recursion). -/
structure DirEntry extends FsNode where
  sub : List FsNode
deriving DecidableEq, Repr

/-- The candidate test of `scan_directory`: a directory containing both
`rchan.yaml` and `PKGBUILD`; all other entries are skipped with `continue`. -/
def qualifies (e : DirEntry) : Bool :=
  e.isDir && e.hasRchanYaml && e.hasPKGBUILD

/-- Lexicographic comparison of two character lists, the order in which
Rust's `str::cmp` compares strings (byte order on valid UTF-8 agrees with
code-point order).  `charListLe as bs` decides `as ≤ bs`. -/
def charListLe : List Char → List Char → Bool
  | [], _ => true
  | _ :: _, [] => false
  | a :: as, b :: bs =>
    if a < b then true
    else if b < a then false
    else charListLe as bs

/-- The comparison closure passed to `results.sort_by`: ordinary string
comparison of the package names. -/
def byName (a b : ScanResult) : Prop :=
  charListLe a.name.toList b.name.toList = true

instance : DecidableRel byName :=
  fun a b => inferInstanceAs (Decidable (charListLe a.name.toList b.name.toList = true))

/-- The pure content of `scan_directory` once the base-directory listing
succeeded: one `check_package` outcome per qualifying entry, then the
stable name sort. -/
def scanOutcomes (network : String → Except String String)
    (entries : List DirEntry) : List ScanResult :=
  List.insertionSort byName
    ((entries.filter qualifies).map fun e =>
      check_package network e.name e.configLoad e.pkgbuildRead)

/-- `scan_directory` from `scanner.rs`: a failure to list the base directory
(`fs::read_dir(base)?`, including a failing directory-entry read during the
iteration) aborts the whole call with `Err`; otherwise every qualifying
entry is checked and the outcome list is sorted by name. -/
def scan_directory (network : String → Except String String)
    (listing : Except String (List DirEntry)) :
    Except String (List ScanResult) :=
  match listing with
  | .error e => .error e
  | .ok entries => .ok (scanOutcomes network entries)

/-- The build-candidate filter inside `run_build` (`builder.rs`): a
directory that contains a `PKGBUILD` and whose base name is neither
`"pkgs"` nor `"build"`. -/
def buildCandidate (e : DirEntry) : Bool :=
  e.isDir && e.hasPKGBUILD && (e.name != "pkgs" && e.name != "build")

/-- The relation of `entries.sort_by_key(file_name)` in `run_build`. -/
def byEntryName (a b : DirEntry) : Prop :=
  charListLe a.name.toList b.name.toList = true

instance : DecidableRel byEntryName :=
  fun a b => inferInstanceAs (Decidable (charListLe a.name.toList b.name.toList = true))

/-- The name-sorted list of build candidates `run_build` iterates over. -/
def buildCandidates (entries : List DirEntry) : List DirEntry :=
  List.insertionSort byEntryName (entries.filter buildCandidate)

/-- `charListLe as bs` holds exactly when `bs` is not below `as` in the
core lexicographic list order. -/
theorem charListLe_eq_true_iff (as : List Char) : ∀ bs : List Char,
    charListLe as bs = true ↔ ¬ List.lt bs as := by
  induction as with
  | nil =>
    intro bs
    cases bs with
    | nil => simp only [charListLe, true_iff]; intro h; cases h
    | cons b bs => simp only [charListLe, true_iff]; intro h; cases h
  | cons a as ih =>
    intro bs
    cases bs with
    | nil =>
      simp only [charListLe, Bool.false_eq_true, false_iff, not_not]
      exact List.lt.nil a as
    | cons b bs =>
      by_cases hab : a < b
      · have hba : ¬ b < a := asymm hab
        simp only [charListLe, hab, if_pos, true_iff]
        intro h
        cases h with
        | head _ _ h2 => exact hba h2
        | tail h1 h2 h3 => exact h2 hab
      · by_cases hba : b < a
        · simp only [charListLe, if_neg hab, if_pos hba, Bool.false_eq_true, false_iff,
            not_not]
          exact List.lt.head _ _ hba
        · simp only [charListLe, if_neg hab, if_neg hba, ih bs]
          constructor
          · intro h hlt
            cases hlt with
            | head _ _ h2 => exact hba h2
            | tail h1 h2 h3 => exact h h3
          · intro h hlt
            exact h (List.lt.tail hba hab hlt)

/-- `charListLe` decides the `≤` order on strings. -/
theorem charListLe_iff_le (s t : String) :
    charListLe s.toList t.toList = true ↔ s ≤ t := by
  rw [charListLe_eq_true_iff, String.le_iff_toList_le, ← not_lt, List.lt_iff_lex_lt]
  exact Iff.rfl

/-- The `sort_by` comparison relation is total. -/
theorem byName_total (a b : ScanResult) : byName a b ∨ byName b a := by
  unfold byName
  rw [charListLe_iff_le, charListLe_iff_le]
  exact le_total _ _

/-- The `sort_by` comparison relation is transitive. -/
theorem byName_trans (a b c : ScanResult) : byName a b → byName b c → byName a c := by
  unfold byName
  rw [charListLe_iff_le, charListLe_iff_le, charListLe_iff_le]
  exact le_trans

/-- The `sort_by` comparison relation is the name order. -/
theorem byName_iff (a b : ScanResult) : byName a b ↔ a.name ≤ b.name :=
  charListLe_iff_le _ _

/-- C1 counterexample: the text `"pkgver=9\npkgver=1.2.3\npkgrel=2\n"`
contains a line `pkgver=1.2.3` and a line `pkgrel=2`, yet extraction yields
the record rendering as `"9-2"`, not `"1.2.3-2"`: the first matching line
wins, so the claim fails as stated for this input. -/
theorem extraction_not_just_line_presence :
    "pkgver=1.2.3".toList ∈ splitLines ("pkgver=9\npkgver=1.2.3\npkgrel=2\n").toList ∧
    "pkgrel=2".toList ∈ splitLines ("pkgver=9\npkgver=1.2.3\npkgrel=2\n").toList ∧
    parse_pkgbuild "pkgver=9\npkgver=1.2.3\npkgrel=2\n" = .ok ⟨"9", "2"⟩ ∧
    (PkgVersion.mk "9" "2").display = "9-2" ∧
    ("9-2" : String) ≠ "1.2.3-2" := by
  refine ⟨by decide, by decide, by decide, by decide, by decide⟩

/-- C1 (amended): for every text that contains a line `pkgver=1.2.3` and a
line `pkgrel=2` (in either order, with arbitrary other lines present),
where those lines are the first ones matching the respective patterns,
extraction succeeds and the resulting record's canonical string form is
`"1.2.3-2"`. -/
theorem parse_pkgbuild_first_match (content : String)
    (l₁ l₂ l₃ l₄ : List (List Char))
    (hver : splitLines content.toList = l₁ ++ "pkgver=1.2.3".toList :: l₂)
    (hver₁ : ∀ l ∈ l₁, verValue l = none)
    (hrel : splitLines content.toList = l₃ ++ "pkgrel=2".toList :: l₄)
    (hrel₁ : ∀ l ∈ l₃, relValue l = none) :
    parse_pkgbuild content = .ok ⟨"1.2.3", "2"⟩ ∧
    (PkgVersion.mk "1.2.3" "2").display = "1.2.3-2" := by
  have hvv : verValue "pkgver=1.2.3".toList = some "1.2.3".toList := by decide
  have hrv : relValue "pkgrel=2".toList = some "2".toList := by decide
  have hv : (splitLines content.toList).findSome? verValue = some "1.2.3".toList := by
    rw [hver, List.findSome?_append, List.findSome?_eq_none_iff.mpr hver₁,
      List.findSome?_cons, hvv]
    rfl
  have hr : (splitLines content.toList).findSome? relValue = some "2".toList := by
    rw [hrel, List.findSome?_append, List.findSome?_eq_none_iff.mpr hrel₁,
      List.findSome?_cons, hrv]
    rfl
  refine ⟨?_, by decide⟩
  simp only [parse_pkgbuild, hv, hr]
  decide

/-- C1 witness: the amended theorem applied to a concrete text in which the
two assignment lines are the first pattern matches. -/
theorem parse_pkgbuild_first_match_witness :
    parse_pkgbuild "pkgname=example\npkgver=1.2.3\npkgrel=2\n" = .ok ⟨"1.2.3", "2"⟩ ∧
    (PkgVersion.mk "1.2.3" "2").display = "1.2.3-2" :=
  parse_pkgbuild_first_match "pkgname=example\npkgver=1.2.3\npkgrel=2\n"
    ["pkgname=example".toList]
    ["pkgrel=2".toList, []]
    ["pkgname=example".toList, "pkgver=1.2.3".toList]
    [[]]
    (by decide) (by decide) (by decide) (by decide)

/-- C2 counterexample: in `"  pkgver=1.2\npkgrel=1\n"`, the only pkgver
assignment line carries leading whitespace and a valid pkgrel line is
present, yet extraction fails: the pattern is anchored at the very start of
the line and leading whitespace is not ignored. -/
theorem leading_whitespace_rejected :
    "  pkgver=1.2".toList ∈ splitLines ("  pkgver=1.2\npkgrel=1\n").toList ∧
    relValue "pkgrel=1".toList = some "1".toList ∧
    parse_pkgbuild "  pkgver=1.2\npkgrel=1\n" =
      .error "Failed to find pkgver in PKGBUILD" := by
  refine ⟨by decide, by decide, by decide⟩

/-- C2 (amended): the extractor matches a line only if the line itself,
from its very first character, begins with the literal key `pkgver=`
followed by a value matching `[0-9][0-9.]*`; a line beginning with a
whitespace character never matches, so leading whitespace is not
ignored. -/
theorem pkgver_match_anchored_at_column_zero (c d : Char) (l rest : List Char)
    (hws : c.isWhitespace = true) (hd : d.isDigit = true) :
    verValue (c :: l) = none ∧
    verValue ("pkgver=".toList ++ d :: rest) = some ((d :: rest).takeWhile verChar) := by
  constructor
  · have hc : c ≠ 'p' := by intro h; subst h; exact absurd hws (by decide)
    unfold verValue
    split
    · rename_i heq
      injection heq with h1 h2
      exact absurd h1 hc
    · rfl
  · have h7 : "pkgver=".toList = ['p', 'k', 'g', 'v', 'e', 'r', '='] := by decide
    rw [h7]
    simp only [List.cons_append, List.nil_append, verValue, hd, if_pos]

/-- C2 witness: the anchoring theorem at a whitespace-led line and at a
line starting with the key at column zero. -/
theorem pkgver_match_anchored_at_column_zero_witness :
    verValue (' ' :: "pkgver=1.2".toList) = none ∧
    verValue ("pkgver=".toList ++ '1' :: ".2".toList) =
      some (('1' :: ".2".toList).takeWhile verChar) :=
  pkgver_match_anchored_at_column_zero ' ' '1' "pkgver=1.2".toList ".2".toList
    (by decide) (by decide)

/-- C3: a text with no line matching the pkgver pattern fails with the
pkgver message, regardless of any pkgrel line; a text with a matching
pkgver line but no matching pkgrel line fails with the pkgrel message. -/
theorem missing_field_errors (content : String) :
    ((∀ l ∈ splitLines content.toList, verValue l = none) →
      parse_pkgbuild content = .error "Failed to find pkgver in PKGBUILD") ∧
    ((∃ l ∈ splitLines content.toList, (verValue l).isSome = true) →
      (∀ l ∈ splitLines content.toList, relValue l = none) →
      parse_pkgbuild content = .error "Failed to find pkgrel in PKGBUILD") := by
  constructor
  · intro h
    simp only [parse_pkgbuild, List.findSome?_eq_none_iff.mpr h]
  · rintro ⟨l, hl, hsome⟩ h
    have h1 : (splitLines content.toList).findSome? verValue ≠ none := by
      rw [Ne, List.findSome?_eq_none_iff]
      push_neg
      exact ⟨l, hl, fun hn => by rw [hn] at hsome; cases hsome⟩
    obtain ⟨v, hv⟩ := Option.ne_none_iff_exists'.mp h1
    simp only [parse_pkgbuild, hv, List.findSome?_eq_none_iff.mpr h]

/-- C3 witness: both failure modes at concrete texts (these are also the
unit tests of `pkgbuild.rs`). -/
theorem missing_field_errors_witness :
    parse_pkgbuild "pkgrel=1\n" = .error "Failed to find pkgver in PKGBUILD" ∧
    parse_pkgbuild "pkgver=1.0.0\n" = .error "Failed to find pkgrel in PKGBUILD" :=
  ⟨(missing_field_errors "pkgrel=1\n").1 (by decide),
   (missing_field_errors "pkgver=1.0.0\n").2
     ⟨"pkgver=1.0.0".toList, by decide, by decide⟩ (by decide)⟩

/-- C4: `PkgVersion` equality is structural string equality of both fields
with no numeric coercion (the records rendering as `"1.2.3-2"` and
`"1.2.3-10"` are unequal), and when every step of a check succeeds the
outcome is `UpToDate` exactly when local and remote records are equal and
`Updated` otherwise. -/
theorem structural_equality_decides_outcome (a b lv rv : PkgVersion)
    (network : String → Except String String) (name : String) (cfg : RchanConfig)
    (readResult : Except String String)
    (hl : parse_local readResult = .ok lv)
    (hr : parse_remote network cfg.remote_pkgbuild = .ok rv) :
    ((a = b) ↔ (a.pkgver = b.pkgver ∧ a.pkgrel = b.pkgrel)) ∧
    PkgVersion.mk "1.2.3" "2" ≠ PkgVersion.mk "1.2.3" "10" ∧
    (check_package network name (.ok cfg) readResult = .UpToDate name lv.display ↔
      lv = rv) ∧
    (lv ≠ rv →
      check_package network name (.ok cfg) readResult =
        .Updated name lv.display rv.display) := by
  refine ⟨?_, by decide, ?_, ?_⟩
  · constructor
    · rintro rfl; exact ⟨rfl, rfl⟩
    · rintro ⟨h1, h2⟩; cases a; cases b; cases h1; cases h2; rfl
  · simp only [check_package, hl, hr]
    by_cases h : lv = rv
    · simp [h]
    · simp [h]
  · intro h
    simp only [check_package, hl, hr]
    simp [h]

/-- C4 witness: the outcome theorem at a concrete check whose local and
remote versions differ. -/
theorem structural_equality_decides_outcome_witness :
    ((PkgVersion.mk "1" "1" = PkgVersion.mk "1" "2") ↔
      ((PkgVersion.mk "1" "1").pkgver = (PkgVersion.mk "1" "2").pkgver ∧
       (PkgVersion.mk "1" "1").pkgrel = (PkgVersion.mk "1" "2").pkgrel)) ∧
    PkgVersion.mk "1.2.3" "2" ≠ PkgVersion.mk "1.2.3" "10" ∧
    (check_package (fun _ => .ok "pkgver=2.0\npkgrel=1\n") "foo"
        (.ok ⟨"http://example/PKGBUILD"⟩) (.ok "pkgver=1.0\npkgrel=1\n") =
      .UpToDate "foo" (PkgVersion.mk "1.0" "1").display ↔
      PkgVersion.mk "1.0" "1" = PkgVersion.mk "2.0" "1") ∧
    (PkgVersion.mk "1.0" "1" ≠ PkgVersion.mk "2.0" "1" →
      check_package (fun _ => .ok "pkgver=2.0\npkgrel=1\n") "foo"
        (.ok ⟨"http://example/PKGBUILD"⟩) (.ok "pkgver=1.0\npkgrel=1\n") =
      .Updated "foo" (PkgVersion.mk "1.0" "1").display
        (PkgVersion.mk "2.0" "1").display) :=
  structural_equality_decides_outcome (PkgVersion.mk "1" "1") (PkgVersion.mk "1" "2")
    (PkgVersion.mk "1.0" "1") (PkgVersion.mk "2.0" "1")
    (fun _ => .ok "pkgver=2.0\npkgrel=1\n") "foo" ⟨"http://example/PKGBUILD"⟩
    (.ok "pkgver=1.0\npkgrel=1\n") (by decide) (by decide)

/-- C5: only the failure of the base directory listing is fatal; every
per-candidate failure is absorbed by `check_package` into an outcome
attributed to that candidate's name, and the scan always returns exactly
one outcome per qualifying candidate (as a permutation of the sorted
output), whatever the step results of the other candidates are. -/
theorem scan_failures_isolated (network : String → Except String String)
    (msg : String) (entries : List DirEntry) :
    scan_directory network (.error msg) = .error msg ∧
    (∀ nm cfgRes rdRes, (check_package network nm cfgRes rdRes).name = nm) ∧
    ∃ l, scan_directory network (.ok entries) = .ok l ∧
      l.Perm ((entries.filter qualifies).map fun e =>
        check_package network e.name e.configLoad e.pkgbuildRead) := by
  refine ⟨rfl, ?_, scanOutcomes network entries, rfl, ?_⟩
  · intro nm cfgRes rdRes
    unfold check_package
    (repeat' split) <;> rfl
  · exact List.perm_insertionSort byName _

/-- C6: each candidate's check runs config load, then local recipe parse,
then remote fetch/parse; the first failing step short-circuits to a single
`Error` outcome whose message names that step, a config failure decides the
outcome whatever the recipe read returns, a local-parse failure decides the
outcome identically under every network (no remote fetch attempted), and a
local recipe missing the pkgrel line produces the local-parse message,
which contains the word pkgrel. -/
theorem check_package_short_circuits (network network' : String → Except String String)
    (name e : String) (cfg : RchanConfig) (readResult : Except String String) :
    (∀ rd, check_package network name (.error e) rd =
      .Error name ("Failed to parse rchan.yaml: " ++ e)) ∧
    (∀ msg, parse_local readResult = .error msg →
      check_package network name (.ok cfg) readResult =
        .Error name ("Failed to parse local PKGBUILD: " ++ msg) ∧
      check_package network name (.ok cfg) readResult =
        check_package network' name (.ok cfg) readResult) ∧
    (∀ lv rerr, parse_local readResult = .ok lv →
      parse_remote network cfg.remote_pkgbuild = .error rerr →
      check_package network name (.ok cfg) readResult =
        .Error name ("Failed to fetch remote PKGBUILD: " ++ rerr)) ∧
    (check_package network name (.ok cfg) (.ok "pkgver=1.0\n") =
      .Error name ("Failed to parse local PKGBUILD: " ++
        "Failed to find pkgrel in PKGBUILD") ∧
     "Failed to parse local PKGBUILD: " ++ "Failed to find pkgrel in PKGBUILD" =
       "Failed to parse local PKGBUILD: Failed to find " ++ "pkgrel" ++
         " in PKGBUILD") := by
  refine ⟨fun rd => rfl, ?_, ?_, ?_, by decide⟩
  · intro msg hmsg
    constructor <;> simp only [check_package, hmsg]
  · intro lv rerr hlv hrerr
    simp only [check_package, hlv, hrerr]
  · have hpl : parse_local (.ok "pkgver=1.0\n") =
      .error "Failed to find pkgrel in PKGBUILD" := by decide
    simp only [check_package, hpl]

/-- C6 witness: a local recipe missing `pkgrel=` yields the local-parse
message, and the outcome is the same under an unreachable network and a
working one. -/
theorem check_package_short_circuits_witness :
    check_package (fun _ => .error "connection refused") "foo"
      (.ok ⟨"http://example/PKGBUILD"⟩) (.ok "pkgver=1.0\n") =
      .Error "foo" ("Failed to parse local PKGBUILD: " ++
        "Failed to find pkgrel in PKGBUILD") ∧
    check_package (fun _ => .error "connection refused") "foo"
      (.ok ⟨"http://example/PKGBUILD"⟩) (.ok "pkgver=1.0\n") =
      check_package (fun _ => .ok "pkgver=2\npkgrel=1\n") "foo"
        (.ok ⟨"http://example/PKGBUILD"⟩) (.ok "pkgver=1.0\n") :=
  (check_package_short_circuits (fun _ => .error "connection refused")
      (fun _ => .ok "pkgver=2\npkgrel=1\n") "foo" "boom"
      ⟨"http://example/PKGBUILD"⟩ (.ok "pkgver=1.0\n")).2.1
    "Failed to find pkgrel in PKGBUILD" (by decide)

/-- C7: the outcome list of a scan is sorted by package name in ascending
lexicographic string order, and the sequence of names in the output is the
same for any enumeration order of the candidate directories. -/
theorem scan_results_sorted_by_name (network : String → Except String String)
    (entries entries' : List DirEntry) (hperm : entries.Perm entries') :
    ((scanOutcomes network entries).map ScanResult.name).Sorted (· ≤ ·) ∧
    (scanOutcomes network entries).map ScanResult.name =
      (scanOutcomes network entries').map ScanResult.name := by
  have hmap : ∀ es : List DirEntry,
      ((scanOutcomes network es).map ScanResult.name).Sorted (· ≤ ·) := fun es =>
    List.Pairwise.map ScanResult.name (fun x y h => (byName_iff x y).mp h)
      (@List.sorted_insertionSort _ byName _ ⟨byName_total⟩ ⟨byName_trans⟩ _)
  refine ⟨hmap entries, ?_⟩
  have hp : (scanOutcomes network entries).Perm (scanOutcomes network entries') := by
    refine (List.perm_insertionSort byName _).trans
      (.trans ?_ (List.perm_insertionSort byName _).symm)
    exact (hperm.filter qualifies).map _
  exact List.eq_of_perm_of_sorted (hp.map ScanResult.name) (hmap entries) (hmap entries')

/-- C7 witness: the sorting theorem at two concrete enumerations of the
same two candidate directories, in opposite orders. -/
theorem scan_results_sorted_by_name_witness :
    ((scanOutcomes (fun _ => .error "connection refused")
        [⟨⟨"b", true, true, true, .ok ⟨"u"⟩, .ok "pkgver=1\npkgrel=1\n"⟩, []⟩,
         ⟨⟨"a", true, true, true, .ok ⟨"u"⟩, .ok "pkgver=1\npkgrel=1\n"⟩, []⟩]).map
      ScanResult.name).Sorted (· ≤ ·) ∧
    (scanOutcomes (fun _ => .error "connection refused")
        [⟨⟨"b", true, true, true, .ok ⟨"u"⟩, .ok "pkgver=1\npkgrel=1\n"⟩, []⟩,
         ⟨⟨"a", true, true, true, .ok ⟨"u"⟩, .ok "pkgver=1\npkgrel=1\n"⟩, []⟩]).map
      ScanResult.name =
    (scanOutcomes (fun _ => .error "connection refused")
        [⟨⟨"a", true, true, true, .ok ⟨"u"⟩, .ok "pkgver=1\npkgrel=1\n"⟩, []⟩,
         ⟨⟨"b", true, true, true, .ok ⟨"u"⟩, .ok "pkgver=1\npkgrel=1\n"⟩, []⟩]).map
      ScanResult.name :=
  scan_results_sorted_by_name (fun _ => .error "connection refused")
    [⟨⟨"b", true, true, true, .ok ⟨"u"⟩, .ok "pkgver=1\npkgrel=1\n"⟩, []⟩,
     ⟨⟨"a", true, true, true, .ok ⟨"u"⟩, .ok "pkgver=1\npkgrel=1\n"⟩, []⟩]
    [⟨⟨"a", true, true, true, .ok ⟨"u"⟩, .ok "pkgver=1\npkgrel=1\n"⟩, []⟩,
     ⟨⟨"b", true, true, true, .ok ⟨"u"⟩, .ok "pkgver=1\npkgrel=1\n"⟩, []⟩]
    (List.Perm.swap
      (⟨⟨"a", true, true, true, .ok ⟨"u"⟩, .ok "pkgver=1\npkgrel=1\n"⟩, []⟩ : DirEntry)
      (⟨⟨"b", true, true, true, .ok ⟨"u"⟩, .ok "pkgver=1\npkgrel=1\n"⟩, []⟩ : DirEntry) [])

/-- C8: non-qualifying entries are silently dropped (scanning only the
qualifying entries gives the same output), every qualifying candidate
contributes exactly one outcome, and the outcomes do not depend on the
entries' own sub-entries (no recursion into nested subdirectories). -/
theorem scan_shallow_one_outcome_per_candidate
    (network : String → Except String String)
    (entries : List DirEntry) (f : DirEntry → List FsNode) :
    scanOutcomes network entries = scanOutcomes network (entries.filter qualifies) ∧
    (scanOutcomes network entries).length = (entries.filter qualifies).length ∧
    scanOutcomes network (entries.map fun e => ⟨e.toFsNode, f e⟩) =
      scanOutcomes network entries := by
  refine ⟨?_, ?_, ?_⟩
  · unfold scanOutcomes
    rw [List.filter_filter]
    simp [Bool.and_self]
  · unfold scanOutcomes
    rw [List.length_insertionSort, List.length_map]
  · unfold scanOutcomes
    rw [List.filter_map, List.map_map]
    rfl

/-- C9: the extracted pkgver value is the maximal digits-and-dots run
following `pkgver=`; in particular `pkgver=1.2rc3` (with a valid pkgrel
line) does not fail but succeeds with primary field `"1.2"`, silently
dropping the trailing non-matching characters. -/
theorem pkgver_value_maximal_digit_dot_run (d : Char) (rest : List Char)
    (hd : d.isDigit = true) :
    verValue ("pkgver=".toList ++ d :: rest) = some ((d :: rest).takeWhile verChar) ∧
    parse_pkgbuild "pkgver=1.2rc3\npkgrel=1\n" = .ok ⟨"1.2", "1"⟩ := by
  constructor
  · have h7 : "pkgver=".toList = ['p', 'k', 'g', 'v', 'e', 'r', '='] := by decide
    rw [h7]
    simp only [List.cons_append, List.nil_append, verValue, hd, if_pos]
  · decide

/-- C9 witness: the maximal-run theorem at the value `1.2rc3`. -/
theorem pkgver_value_maximal_digit_dot_run_witness :
    verValue ("pkgver=".toList ++ '1' :: ".2rc3".toList) =
      some (('1' :: ".2rc3".toList).takeWhile verChar) ∧
    parse_pkgbuild "pkgver=1.2rc3\npkgrel=1\n" = .ok ⟨"1.2", "1"⟩ :=
  pkgver_value_maximal_digit_dot_run '1' ".2rc3".toList (by decide)

/-- C10: build-candidate discovery never selects an immediate subdirectory
named `pkgs` or `build`, even one containing a recipe file: the output
collection area and the scratch build area are excluded by name. -/
theorem build_skips_pkgs_and_build_dirs (entries : List DirEntry) (e : DirEntry)
    (h : e ∈ buildCandidates entries) :
    e.name ≠ "pkgs" ∧ e.name ≠ "build" := by
  unfold buildCandidates at h
  rw [List.mem_insertionSort] at h
  have hb := List.of_mem_filter h
  unfold buildCandidate at hb
  simp only [Bool.and_eq_true, bne_iff_ne, ne_eq] at hb
  exact ⟨hb.2.1, hb.2.2⟩

/-- C10 witness: in a listing holding a `pkgs` directory with a PKGBUILD
and an ordinary candidate, only the ordinary candidate is selected, and its
name is neither `pkgs` nor `build`. -/
theorem build_skips_pkgs_and_build_dirs_witness :
    (⟨⟨"abc", true, false, true, .error "x", .error "y"⟩, []⟩ : DirEntry).name ≠ "pkgs" ∧
    (⟨⟨"abc", true, false, true, .error "x", .error "y"⟩, []⟩ : DirEntry).name ≠ "build" :=
  build_skips_pkgs_and_build_dirs
    [⟨⟨"pkgs", true, false, true, .error "x", .error "y"⟩, []⟩,
     ⟨⟨"abc", true, false, true, .error "x", .error "y"⟩, []⟩]
    ⟨⟨"abc", true, false, true, .error "x", .error "y"⟩, []⟩ (by decide)

end Rchan
